import Mathlib

/-!
# Verification of the dhammer DHCPv4 handler (`handler/dhcpv4.go`)

A shallow embedding of the per-instance DHCPv4/ARP protocol engine of the
dhammer load-generation tool.  Machine bytes are modelled as `Nat`, byte
slices (MAC addresses, IP addresses, option payloads) as `List Nat`.
Go map iteration/insertion is modelled with an association list keyed by the
address bytes (the Go code keys its map on `net.IP.String()`, which is
injective on the 4-byte addresses produced by the packet parser).

Side effects are made explicit:
  * statistics (`addStat`) accumulate in a list;
  * serialized outbound packets (`sendPayload`) accumulate as the layer
    values captured at serialization time;
  * `netlink` bind attempts are logged in `bindAttempts`, and their
    success/failure is an environment input (`Env`), as are `time.Now()`
    and the transmission collaborator's accept/reject answer;
  * Go runtime panics (out-of-range indexing, failed type assertion on a
    nil layer) are modelled with `Except GoPanic`.
-/

/-- A Go runtime panic reachable in the handler's worker loop. -/
inductive GoPanic where
  | indexOutOfRange
  | nilTypeAssertion
deriving DecidableEq

/-- The statistics counters the handler reports (`stats.StatValue`). -/
inductive StatValue where
  | arpRequestReceived
  | arpReplySent
  | offerReceived
  | declineSent
  | requestSent
  | ackReceived
  | infoSent
  | releaseSent
  | nakReceived
deriving DecidableEq

/-- Environment inputs consumed while processing one message: the current
time (`time.Now()`), whether `netlink.ParseAddr` and `netlink.AddrAdd`
succeed, and whether the transmission collaborator accepts the payload. -/
structure Env where
  now : Nat
  parseOk : Bool
  addOk : Bool
  sendOk : Bool
deriving DecidableEq

/-- The subset of `config.DhcpV4Options` the handler reads. -/
structure DhcpV4Options where
  handshake : Bool
  dhcpDecline : Bool
  arp : Bool
  arpFakeMAC : Bool
  bind : Bool
  dhcpRelease : Bool
  dhcpInfo : Bool
  dhcpRelay : Bool
  relaySourceIP : List Nat
  relayTargetServerIP : List Nat
  relayGatewayIP : List Nat
  dhcpBroadcast : Bool
  ethernetBroadcast : Bool
  targetPort : Nat
deriving DecidableEq

/-- A DHCP option: code byte and payload bytes (`layers.DHCPOption`). -/
structure DHCPOption where
  type : Nat
  data : List Nat
deriving DecidableEq

/-- The fields of a parsed `layers.DHCPv4` reply that the handler reads. -/
structure DHCPv4Msg where
  xid : Nat
  yourClientIP : List Nat
  clientHWAddr : List Nat
  options : List DHCPOption
deriving DecidableEq

/-- The fields of a parsed `layers.ARP` packet the handler reads or sets. -/
structure ARPMsg where
  operation : Nat
  sourceHwAddress : List Nat
  sourceProtAddress : List Nat
  dstHwAddress : List Nat
  dstProtAddress : List Nat
  hwAddressSize : Nat
  protAddressSize : Nat
  addrType : Nat
  protocol : Nat
deriving DecidableEq

/-- An Ethernet layer (`layers.Ethernet`): destination MAC, source MAC,
EtherType. -/
structure EthernetLayer where
  dst : List Nat
  src : List Nat
  ethType : Nat
deriving DecidableEq

/-- An IPv4 layer (`layers.IPv4`) with the fields the handler sets/reads. -/
structure IPv4Layer where
  version : Nat
  ttl : Nat
  protocol : Nat
  src : List Nat
  dst : List Nat
deriving DecidableEq

/-- A UDP layer (`layers.UDP`); `checksumNet` records the network layer
installed by `SetNetworkLayerForChecksum`, i.e. the IPv4 layer whose
addresses feed the UDP pseudo-header checksum. -/
structure UDPLayer where
  srcPort : Nat
  dstPort : Nat
  checksumNet : Option IPv4Layer
deriving DecidableEq

/-- The mutable outbound DHCP layer template (`outDhcpLayer`). -/
structure DHCPLayer where
  operation : Nat
  xid : Nat
  flags : Nat
  clientIP : List Nat
  clientHWAddr : List Nat
  relayAgentIP : List Nat
  options : List DHCPOption
deriving DecidableEq

/-- The long-lived layer templates built at the top of `Run` and mutated in
place across loop iterations. -/
structure Templates where
  eth : EthernetLayer
  ip : IPv4Layer
  udp : UDPLayer
  dhcp : DHCPLayer
deriving DecidableEq

/-- A received frame: the layers of `msg.Packet` the handler looks up.
A `none` layer models `Packet.Layer(...)` returning nil. -/
structure Message where
  arp : Option ARPMsg
  dhcp : Option DHCPv4Msg
  eth : Option EthernetLayer
  ip : Option IPv4Layer
deriving DecidableEq

/-- One lease record (`LeaseDhcpV4`): the packet that acquired it, the
acquisition time, the client hardware address, and the netlink address
handle when the `/32` was successfully bound to the local link. -/
structure LeaseDhcpV4 where
  packet : Message
  acquired : Nat
  hwAddr : List Nat
  linkAddr : Option (List Nat)
deriving DecidableEq

/-- A packet handed to `sendPayload`, as the layer values at serialization
time. -/
structure SerializedDhcpPacket where
  eth : EthernetLayer
  ip : IPv4Layer
  udp : UDPLayer
  dhcp : DHCPLayer
deriving DecidableEq

/-- An outbound payload: either a DHCP packet or an ARP defense reply. -/
inductive OutPacket where
  | dhcp (p : SerializedDhcpPacket)
  | arp (eth : EthernetLayer) (msg : ARPMsg)
deriving DecidableEq

/-- The mutable state of one handler instance: the lease map
(`acquiredIPs`), the layer templates, and the accumulated observable
effects (stats, sent payloads, netlink bind attempts, logged errors). -/
structure HandlerState where
  acquiredIPs : List (List Nat × LeaseDhcpV4)
  template : Templates
  stats : List StatValue
  outPackets : List OutPacket
  bindAttempts : List (List Nat)
  errors : Nat
deriving DecidableEq

/-- `addStat` appends a statistic. -/
def addStat (st : HandlerState) (v : StatValue) : HandlerState :=
  { st with stats := st.stats ++ [v] }

/-- Map lookup on the lease table (`h.acquiredIPs[ipStr]`). -/
def lookupLease (t : List (List Nat × LeaseDhcpV4)) (a : List Nat) :
    Option LeaseDhcpV4 :=
  match t with
  | [] => none
  | (k, l) :: rest => if k = a then some l else lookupLease rest a

/-- Number of lease-table entries for address `a`. -/
def countKey (a : List Nat) (t : List (List Nat × LeaseDhcpV4)) : Nat :=
  match t with
  | [] => 0
  | (k, _) :: rest => (if k = a then 1 else 0) + countKey a rest

/-- Number of occurrences of `a` in a list of addresses. -/
def countOcc (a : List Nat) (l : List (List Nat)) : Nat :=
  match l with
  | [] => 0
  | x :: rest => (if x = a then 1 else 0) + countOcc a rest

/-- `ReceiveMessage`: non-blocking enqueue into the bounded input channel
(capacity 10000, set in `NewDhcpV4`).  Returns the new queue and the
boolean result of the call. -/
def receiveMessage (q : List Message) (m : Message) : List Message × Bool :=
  if q.length < 10000 then (q ++ [m], true) else (q, false)

/-- The reply option table: `replyOptions[c]` after the fill loop
`for _, option := range dhcpReply.Options { replyOptions[option.Type] = option }`,
i.e. the last option with code `c`, or the zero-value option. -/
def buildReplyOptions (l : List DHCPOption) (c : Nat) : DHCPOption :=
  l.foldl (fun acc o => if o.type = c then o else acc) ⟨0, []⟩

/-- The all-ones broadcast MAC (`layers.EthernetBroadcast`). -/
def broadcastMAC : List Nat := [255, 255, 255, 255, 255, 255]

/-- The layer templates as built at the top of `Run`, before the message
loop: broadcast Ethernet/IP addressing (or gateway/relay addressing when
the corresponding option is set), UDP 68 → target port (67 as source in
relay mode), and a DHCP request skeleton with the broadcast flag per
configuration. -/
def initTemplates (opts : DhcpV4Options) (ifaceMAC gatewayMAC : List Nat) :
    Templates :=
  let eth0 : EthernetLayer :=
    { dst := if opts.ethernetBroadcast then broadcastMAC else gatewayMAC
      src := ifaceMAC
      ethType := 0x0800 }
  let ip0 : IPv4Layer :=
    { version := 4, ttl := 64, protocol := 17
      src := [0, 0, 0, 0], dst := [255, 255, 255, 255] }
  let udp0 : UDPLayer :=
    { srcPort := 68, dstPort := opts.targetPort, checksumNet := none }
  let dhcp0 : DHCPLayer :=
    { operation := 1, xid := 0
      flags := if opts.dhcpBroadcast then 0x8000 else 0
      clientIP := [], clientHWAddr := [], relayAgentIP := [], options := [] }
  if opts.dhcpRelay then
    { eth := { eth0 with src := ifaceMAC, dst := gatewayMAC }
      ip := { ip0 with src := opts.relaySourceIP, dst := opts.relayTargetServerIP }
      udp := { udp0 with srcPort := 67 }
      dhcp := { dhcp0 with relayAgentIP := opts.relayGatewayIP } }
  else
    { eth := eth0, ip := ip0, udp := udp0, dhcp := dhcp0 }

/-- The handler state at the start of `Run`: empty lease table
(`make(map[string]*LeaseDhcpV4)` in `NewDhcpV4`), fresh templates, no
effects yet. -/
def initialState (opts : DhcpV4Options) (ifaceMAC gatewayMAC : List Nat) :
    HandlerState :=
  { acquiredIPs := []
    template := initTemplates opts ifaceMAC gatewayMAC
    stats := []
    outPackets := []
    bindAttempts := []
    errors := 0 }

/-- `handleARP`: on an ARP request whose target protocol address has a
lease, build and send an ARP reply claiming the address (spoofing the
lease's client MAC when `ArpFakeMAC` is set); otherwise do nothing. -/
def handleARP (opts : DhcpV4Options) (ifaceMAC : List Nat) (env : Env)
    (st : HandlerState) (arpRequest : ARPMsg) : HandlerState :=
  if arpRequest.operation = 1 then
    match lookupLease st.acquiredIPs arpRequest.dstProtAddress with
    | some lease =>
      let ethernetLayer : EthernetLayer :=
        { dst := arpRequest.sourceHwAddress
          src := ifaceMAC
          ethType := 0x0806 }
      let arpLayer : ARPMsg :=
        { operation := 2
          dstHwAddress := arpRequest.sourceHwAddress
          dstProtAddress := arpRequest.sourceProtAddress
          hwAddressSize := arpRequest.hwAddressSize
          addrType := arpRequest.addrType
          protAddressSize := arpRequest.protAddressSize
          protocol := arpRequest.protocol
          sourceHwAddress := if opts.arpFakeMAC then lease.hwAddr else ifaceMAC
          sourceProtAddress := arpRequest.dstProtAddress }
      let st :=
        { st with outPackets := st.outPackets ++ [.arp ethernetLayer arpLayer] }
      if env.sendOk then addStat st .arpReplySent else st
    | none => st
  else st

/-- The REQUEST/DECLINE packet serialized in the OFFER branch, as a
function of the templates and the offer. -/
def offerResponse (opts : DhcpV4Options) (tpl : Templates)
    (reply : DHCPv4Msg) : SerializedDhcpPacket :=
  let newOptions : List DHCPOption :=
    [ ⟨53, [if opts.dhcpDecline then 4 else 3]⟩,
      ⟨50, reply.yourClientIP⟩,
      ⟨54, (buildReplyOptions reply.options 54).data⟩,
      ⟨255, []⟩ ]
  let newDhcp : DHCPLayer :=
    { tpl.dhcp with
        xid := reply.xid
        options := newOptions
        clientHWAddr := reply.clientHWAddr }
  let newUdp : UDPLayer := { tpl.udp with checksumNet := some tpl.ip }
  ⟨tpl.eth, tpl.ip, newUdp, newDhcp⟩

/-- The OFFER branch: record the statistic; when handshake mode is on,
mutate the template DHCP layer (xid, options, client hardware address) and
the UDP checksum layer, serialize against the template Ethernet/IP layers,
send, and record the sent statistic on acceptance. -/
def processOffer (opts : DhcpV4Options) (env : Env) (st : HandlerState)
    (reply : DHCPv4Msg) : HandlerState :=
  let st := addStat st .offerReceived
  if opts.handshake then
    let tpl := st.template
    let pkt := offerResponse opts tpl reply
    let st :=
      { st with
          template := { tpl with dhcp := pkt.dhcp, udp := pkt.udp }
          outPackets := st.outPackets ++ [.dhcp pkt] }
    if env.sendOk then
      addStat st (if opts.dhcpDecline then .declineSent else .requestSent)
    else st
  else st

/-- The RELEASE/INFORM packet serialized in the ACK branch: unicast
Ethernet back to the reply's source MAC, a fresh IP layer from the
acquired address to the source address of the ACK's own IP header, the
template UDP layer with the template IP layer as checksum pseudo-header,
and the template DHCP layer with client IP set to the acquired address,
flags zeroed, and a RELEASE/INFORM message-type option. -/
def releaseResponse (opts : DhcpV4Options) (ifaceMAC : List Nat)
    (tpl : Templates) (reply : DHCPv4Msg) (ethL : EthernetLayer)
    (ipL : IPv4Layer) : SerializedDhcpPacket :=
  let releaseEthernetLayer : EthernetLayer :=
    { dst := ethL.src, src := ifaceMAC, ethType := 0x0800 }
  let releaseIpLayer : IPv4Layer :=
    { version := 4, ttl := 64, protocol := 17
      src := reply.yourClientIP, dst := ipL.src }
  let newOptions : List DHCPOption :=
    [ ⟨53, [if opts.dhcpInfo then 8 else 7]⟩, ⟨255, []⟩ ]
  let newDhcp : DHCPLayer :=
    { tpl.dhcp with
        xid := reply.xid
        clientIP := reply.yourClientIP
        flags := 0
        options := newOptions
        clientHWAddr := reply.clientHWAddr }
  let newUdp : UDPLayer := { tpl.udp with checksumNet := some tpl.ip }
  ⟨releaseEthernetLayer, releaseIpLayer, newUdp, newDhcp⟩

/-- The lease bookkeeping of the ACK branch: with `Arp` or `Bind` on,
insert a lease for the offered address if absent (binding the `/32` to the
local link in `Bind` mode, with `netlink.ParseAddr`/`netlink.AddrAdd`
failures logged and the lease left without a handle). -/
def ackLeaseUpdate (opts : DhcpV4Options) (env : Env) (st : HandlerState)
    (m : Message) (reply : DHCPv4Msg) : HandlerState :=
  if opts.arp || opts.bind then
    match lookupLease st.acquiredIPs reply.yourClientIP with
    | some _ => st
    | none =>
      let lease0 : LeaseDhcpV4 :=
        { packet := m, acquired := env.now
          hwAddr := reply.clientHWAddr, linkAddr := none }
      if opts.bind then
        if env.parseOk then
          let st1 :=
            { st with bindAttempts := st.bindAttempts ++ [reply.yourClientIP] }
          if env.addOk then
            { st1 with acquiredIPs := st1.acquiredIPs ++
                [(reply.yourClientIP,
                  { lease0 with linkAddr := some reply.yourClientIP })] }
          else
            { st1 with errors := st1.errors + 1
                       acquiredIPs := st1.acquiredIPs ++
                         [(reply.yourClientIP, lease0)] }
        else
          { st with errors := st.errors + 1
                    acquiredIPs := st.acquiredIPs ++
                      [(reply.yourClientIP, lease0)] }
      else
        { st with acquiredIPs := st.acquiredIPs ++
            [(reply.yourClientIP, lease0)] }
  else st

/-- The RELEASE/INFORM synthesis of the ACK branch: when `DhcpRelease` or
`DhcpInfo` is on, build the unicast packet, serialize it, restore the
template's client IP and flags to their prior values, send, and record the
statistic on acceptance.  Reading the Ethernet/IPv4 layers of a frame that
lacks them is a failed type assertion on nil, a Go panic. -/
def ackReleasePhase (opts : DhcpV4Options) (ifaceMAC : List Nat) (env : Env)
    (st : HandlerState) (m : Message) (reply : DHCPv4Msg) :
    Except GoPanic HandlerState :=
  if opts.dhcpRelease || opts.dhcpInfo then
    match m.eth, m.ip with
    | some ethL, some ipL =>
      let tpl := st.template
      let pkt := releaseResponse opts ifaceMAC tpl reply ethL ipL
      let restoredDhcp : DHCPLayer :=
        { pkt.dhcp with clientIP := tpl.dhcp.clientIP, flags := tpl.dhcp.flags }
      let st1 :=
        { st with
            template := { tpl with dhcp := restoredDhcp, udp := pkt.udp }
            outPackets := st.outPackets ++ [.dhcp pkt] }
      if env.sendOk then
        .ok (addStat st1 (if opts.dhcpInfo then .infoSent else .releaseSent))
      else .ok st1
    | _, _ => .error .nilTypeAssertion
  else .ok st

/-- The ACK branch: record the statistic, do the lease bookkeeping, then
the RELEASE/INFORM synthesis. -/
def processAck (opts : DhcpV4Options) (ifaceMAC : List Nat) (env : Env)
    (st : HandlerState) (m : Message) (reply : DHCPv4Msg) :
    Except GoPanic HandlerState :=
  ackReleasePhase opts ifaceMAC env
    (ackLeaseUpdate opts env (addStat st .ackReceived) m reply) m reply

/-- The fall-through branch after OFFER and ACK: record a NAK statistic
when the first byte of the first option's payload is the NAK code,
`dhcpReply.Options[0].Data[0] == byte(layers.DHCPMsgTypeNak)`; an empty
options list or empty first payload is an out-of-range Go panic. -/
def processOther (st : HandlerState) (reply : DHCPv4Msg) :
    Except GoPanic HandlerState :=
  match reply.options with
  | [] => .error .indexOutOfRange
  | o0 :: _ =>
    match o0.data with
    | [] => .error .indexOutOfRange
    | d0 :: _ => if d0 = 6 then .ok (addStat st .nakReceived) else .ok st

/-- The DHCP part of the loop body: build the reply option table, read
`replyOptions[53].Data[0]` (an out-of-range Go panic when the reply has no
message-type option or an empty payload), and dispatch on OFFER/ACK/other. -/
def processDhcp (opts : DhcpV4Options) (ifaceMAC : List Nat) (env : Env)
    (st : HandlerState) (m : Message) : Except GoPanic HandlerState :=
  match m.dhcp with
  | none => .ok st
  | some reply =>
    match (buildReplyOptions reply.options 53).data with
    | [] => .error .indexOutOfRange
    | replyMsgType :: _ =>
      if replyMsgType = 2 then .ok (processOffer opts env st reply)
      else if replyMsgType = 5 then processAck opts ifaceMAC env st m reply
      else processOther st reply

/-- One iteration of the `for msg = range h.inputChannel` loop: ARP frames
go to the ARP defender (with an ARP-request-received statistic) when `Arp`
mode is on; frames without a DHCP layer are discarded; the rest go through
DHCP classification. -/
def processMessage (opts : DhcpV4Options) (ifaceMAC : List Nat) (env : Env)
    (st : HandlerState) (m : Message) : Except GoPanic HandlerState :=
  match m.arp with
  | some arpRequest =>
    if opts.arp then
      .ok (handleARP opts ifaceMAC env (addStat st .arpRequestReceived) arpRequest)
    else processDhcp opts ifaceMAC env st m
  | none => processDhcp opts ifaceMAC env st m

/-- The worker loop over a finite queue of messages with their environment
inputs; a Go panic aborts the loop (the goroutine dies). -/
def runMessages (opts : DhcpV4Options) (ifaceMAC : List Nat)
    (ems : List (Env × Message)) (st : HandlerState) :
    Except GoPanic HandlerState :=
  match ems with
  | [] => .ok st
  | em :: rest =>
    match processMessage opts ifaceMAC em.1 st em.2 with
    | .ok st1 => runMessages opts ifaceMAC rest st1
    | .error e => .error e

/-- `DeInit`: in `Bind` mode, the sequence of netlink address handles
passed to `netlink.AddrDel`, one per lease in the table (a `none` entry is
the nil `LinkAddr` of a lease whose binding failed). -/
def deInitAttempts (opts : DhcpV4Options) (st : HandlerState) :
    List (Option (List Nat)) :=
  if opts.bind then st.acquiredIPs.map (fun e => e.2.linkAddr) else []

/-! ## Sample concrete values used by witnesses and counterexamples -/

/-- A configuration with every mode switched off. -/
def plainOpts : DhcpV4Options :=
  { handshake := false, dhcpDecline := false, arp := false
    arpFakeMAC := false, bind := false, dhcpRelease := false
    dhcpInfo := false, dhcpRelay := false, relaySourceIP := []
    relayTargetServerIP := [], relayGatewayIP := [], dhcpBroadcast := false
    ethernetBroadcast := false, targetPort := 67 }

/-- A local interface MAC address. -/
def sampleIfaceMAC : List Nat := [2, 0, 0, 0, 0, 1]

/-- A gateway MAC address. -/
def sampleGatewayMAC : List Nat := [2, 0, 0, 0, 0, 2]

/-- An environment where every collaborator call succeeds. -/
def sampleEnv : Env := { now := 11, parseOk := true, addOk := true, sendOk := true }

/-- An empty frame. -/
def sampleMessage : Message := { arp := none, dhcp := none, eth := none, ip := none }

/-! ## Basic lemmas about the embedded operations -/

lemma addStat_acquiredIPs (st : HandlerState) (v : StatValue) :
    (addStat st v).acquiredIPs = st.acquiredIPs := rfl

lemma addStat_template (st : HandlerState) (v : StatValue) :
    (addStat st v).template = st.template := rfl

lemma addStat_outPackets (st : HandlerState) (v : StatValue) :
    (addStat st v).outPackets = st.outPackets := rfl

lemma addStat_bindAttempts (st : HandlerState) (v : StatValue) :
    (addStat st v).bindAttempts = st.bindAttempts := rfl

lemma lookupLease_append_right (t : List (List Nat × LeaseDhcpV4))
    (a : List Nat) (l : LeaseDhcpV4) (h : lookupLease t a = none) :
    lookupLease (t ++ [(a, l)]) a = some l := by
  induction t with
  | nil => simp [lookupLease]
  | cons p rest ih =>
    rw [lookupLease] at h
    by_cases hk : p.1 = a
    · simp [hk] at h
    · rw [List.cons_append, lookupLease]
      simp only [hk, if_false]
      exact ih (by simpa [hk] using h)

lemma countKey_append (a : List Nat) (t1 t2 : List (List Nat × LeaseDhcpV4)) :
    countKey a (t1 ++ t2) = countKey a t1 + countKey a t2 := by
  induction t1 with
  | nil => simp [countKey]
  | cons p rest ih => rw [List.cons_append, countKey, countKey, ih]; ring

lemma countOcc_append (a : List Nat) (l1 l2 : List (List Nat)) :
    countOcc a (l1 ++ l2) = countOcc a l1 + countOcc a l2 := by
  induction l1 with
  | nil => simp [countOcc]
  | cons x rest ih => rw [List.cons_append, countOcc, countOcc, ih]; ring

lemma lookupLease_of_countKey_zero (t : List (List Nat × LeaseDhcpV4))
    (a : List Nat) (h : countKey a t = 0) : lookupLease t a = none := by
  induction t with
  | nil => rfl
  | cons p rest ih =>
    rw [countKey] at h
    by_cases hk : p.1 = a
    · simp [hk] at h
    · rw [lookupLease]
      simp only [hk, if_false]
      exact ih (by omega)

/-! ## C8: bounded, non-blocking input queue -/

/-- C8: `ReceiveMessage` never blocks; with free space in the bounded
queue (capacity 10000) the message is enqueued and the call returns
`true`, and with the queue full the message is dropped and the call
returns `false`. -/
theorem receiveMessage_nonblocking (q : List Message) (m : Message) :
    (q.length < 10000 → receiveMessage q m = (q ++ [m], true)) ∧
    (10000 ≤ q.length → receiveMessage q m = (q, false)) := by
  constructor
  · intro h; simp [receiveMessage, h]
  · intro h; simp [receiveMessage, Nat.not_lt.mpr h]

/-- Witness for C8: an empty queue accepts the message; a queue holding
10000 messages rejects it unchanged. -/
theorem receiveMessage_nonblocking_witness :
    receiveMessage [] sampleMessage = ([sampleMessage], true) ∧
    receiveMessage (List.replicate 10000 sampleMessage) sampleMessage
      = (List.replicate 10000 sampleMessage, false) :=
  ⟨(receiveMessage_nonblocking [] sampleMessage).1 (by simp),
   (receiveMessage_nonblocking (List.replicate 10000 sampleMessage)
      sampleMessage).2 (by rw [List.length_replicate])⟩

/-! ## C5: a malformed reply kills the worker (code bug) -/

/-- A reply whose option list carries no message-type option (code 53):
only an end option. -/
def malformedMsg : Message :=
  { arp := none, eth := none, ip := none
    dhcp := some
      { xid := 1, yourClientIP := [10, 0, 0, 5]
        clientHWAddr := [1, 2, 3, 4, 5, 6]
        options := [⟨255, []⟩] } }

/-- A well-formed OFFER used to show the loop never reaches the message
after the malformed one. -/
def followupOffer : Message :=
  { arp := none, eth := none, ip := none
    dhcp := some
      { xid := 2, yourClientIP := [10, 0, 0, 6]
        clientHWAddr := [1, 2, 3, 4, 5, 6]
        options := [⟨53, [2]⟩, ⟨54, [10, 0, 0, 1]⟩, ⟨255, []⟩] } }

/-- C5 (the code contradicts the claim): dereferencing
`replyOptions[53].Data[0]` on a reply with no message-type option is an
out-of-range Go panic, so the worker loop dies instead of skipping the
message — the following message is never processed. -/
theorem malformed_reply_halts_worker :
    processMessage plainOpts sampleIfaceMAC sampleEnv
        (initialState plainOpts sampleIfaceMAC sampleGatewayMAC) malformedMsg
      = .error .indexOutOfRange ∧
    runMessages plainOpts sampleIfaceMAC
        [(sampleEnv, malformedMsg), (sampleEnv, followupOffer)]
        (initialState plainOpts sampleIfaceMAC sampleGatewayMAC)
      = .error .indexOutOfRange := by
  exact ⟨rfl, rfl⟩

/-! ## C7: shutdown also attempts removal for unbound leases (code bug) -/

/-- A configuration with only interface binding enabled. -/
def bindOpts : DhcpV4Options := { plainOpts with bind := true }

/-- An ACK for 10.0.0.5. -/
def ackMsgBind : Message :=
  { arp := none, eth := none, ip := none
    dhcp := some
      { xid := 3, yourClientIP := [10, 0, 0, 5]
        clientHWAddr := [1, 2, 3, 4, 5, 6]
        options := [⟨53, [5]⟩, ⟨255, []⟩] } }

/-- An environment where `netlink.AddrAdd` fails, so the lease is left
without a recorded binding handle. -/
def bindFailEnv : Env := { now := 7, parseOk := true, addOk := false, sendOk := true }

/-- C7 (the code contradicts the claim): after an ACK whose binding
failed, `DeInit` still attempts an address removal for that lease — it
passes the lease's nil `LinkAddr` to `netlink.AddrDel` instead of
skipping it, so the attempted-removal list is `[none]` rather than
empty. -/
theorem deinit_attempts_unbound_lease :
    (processMessage bindOpts sampleIfaceMAC bindFailEnv
        (initialState bindOpts sampleIfaceMAC sampleGatewayMAC) ackMsgBind).map
      (fun st => deInitAttempts bindOpts st) = .ok [none] := by
  rfl

/-! ## C6: ARP requests for unknown addresses -/

/-- A configuration with only ARP defense enabled. -/
def arpOpts : DhcpV4Options := { plainOpts with arp := true }

/-- An ARP request for 10.0.0.5, an address with no lease. -/
def arpReqUnknown : Message :=
  { dhcp := none, eth := none, ip := none
    arp := some
      { operation := 1
        sourceHwAddress := [1, 2, 3, 4, 5, 6]
        sourceProtAddress := [10, 0, 0, 9]
        dstHwAddress := [0, 0, 0, 0, 0, 0]
        dstProtAddress := [10, 0, 0, 5]
        hwAddressSize := 6, protAddressSize := 4
        addrType := 1, protocol := 0x0800 } }

/-- C6 counterexample: on an ARP request whose target has no lease the
code sends nothing, but it does record a statistic — the
ARP-request-received counter is bumped before the lease lookup, so the
stat list grows from `[]` to `[arpRequestReceived]` where the claim says
no statistic is recorded. -/
theorem arp_unknown_stat_counterexample :
    (processMessage arpOpts sampleIfaceMAC sampleEnv
        (initialState arpOpts sampleIfaceMAC sampleGatewayMAC)
        arpReqUnknown).map (fun s => (s.outPackets, s.stats))
      = .ok ([], [StatValue.arpRequestReceived]) := by
  rfl

/-- C6 (amended): on an ARP request whose target protocol address has no
lease, no outbound packet is produced and no ARP-reply statistic is
recorded; the only statistic recorded is the ARP-request-received counter,
which the loop bumps for every ARP frame before the lookup. -/
theorem arp_unknown_no_reply (opts : DhcpV4Options) (ifaceMAC : List Nat)
    (env : Env) (st : HandlerState) (m : Message) (arpRequest : ARPMsg)
    (harp : opts.arp = true) (hm : m.arp = some arpRequest)
    (hreq : arpRequest.operation = 1)
    (hnone : lookupLease st.acquiredIPs arpRequest.dstProtAddress = none) :
    (processMessage opts ifaceMAC env st m).map
        (fun s => (s.outPackets, s.stats))
      = .ok (st.outPackets, st.stats ++ [StatValue.arpRequestReceived]) := by
  unfold processMessage
  rw [hm]
  simp only [harp, if_true]
  unfold handleARP
  simp [hreq, addStat_acquiredIPs, hnone, addStat, Except.map]

/-- Witness for the amended C6: an ARP request for 10.0.0.5 against the
empty lease table yields no packet and only the request-received stat. -/
theorem arp_unknown_no_reply_witness :
    (processMessage arpOpts sampleIfaceMAC sampleEnv
        (initialState arpOpts sampleIfaceMAC sampleGatewayMAC)
        arpReqUnknown).map (fun s => (s.outPackets, s.stats))
      = .ok ((initialState arpOpts sampleIfaceMAC sampleGatewayMAC).outPackets,
             (initialState arpOpts sampleIfaceMAC sampleGatewayMAC).stats
               ++ [StatValue.arpRequestReceived]) :=
  arp_unknown_no_reply arpOpts sampleIfaceMAC sampleEnv
    (initialState arpOpts sampleIfaceMAC sampleGatewayMAC)
    arpReqUnknown
    { operation := 1
      sourceHwAddress := [1, 2, 3, 4, 5, 6]
      sourceProtAddress := [10, 0, 0, 9]
      dstHwAddress := [0, 0, 0, 0, 0, 0]
      dstProtAddress := [10, 0, 0, 5]
      hwAddressSize := 6, protAddressSize := 4
      addrType := 1, protocol := 0x0800 }
    rfl rfl rfl rfl

/-! ## C9: NAK statistics read the first option slot, not the table -/

/-- A NAK reply whose message-type option is not the first option: the
server-identifier option comes first. -/
def nakReplyShifted : DHCPv4Msg :=
  { xid := 9, yourClientIP := [0, 0, 0, 0]
    clientHWAddr := [1, 2, 3, 4, 5, 6]
    options := [⟨54, [10, 0, 0, 1]⟩, ⟨53, [6]⟩] }

/-- The frame carrying `nakReplyShifted`. -/
def nakMsgShifted : Message :=
  { arp := none, eth := none, ip := none, dhcp := some nakReplyShifted }

/-- C9 counterexample: this reply is classified as a NAK by the reply
option table (`replyOptions[53].Data = [6]`), yet no statistic at all is
recorded, because the NAK branch tests `Options[0].Data[0]` directly and
the first option here is the server identifier. -/
theorem nak_stat_missed_counterexample :
    (buildReplyOptions nakReplyShifted.options 53).data = [6] ∧
    (processMessage plainOpts sampleIfaceMAC sampleEnv
        (initialState plainOpts sampleIfaceMAC sampleGatewayMAC)
        nakMsgShifted).map (fun s => s.stats)
      = .ok [] := by
  exact ⟨rfl, rfl⟩

/-- C9 (amended): on a reply classified as NAK by the option table, no
outbound packet is generated, and a NAK-received statistic is recorded
exactly when the first byte of the first option's payload is the NAK code
6 — in particular exactly one statistic when the message-type option is
first, and none otherwise. -/
theorem nak_stat_first_option_slot (opts : DhcpV4Options)
    (ifaceMAC : List Nat) (env : Env) (st : HandlerState) (m : Message)
    (reply : DHCPv4Msg) (o0 : DHCPOption) (d0 : Nat) (ds rest : List Nat)
    (os : List DHCPOption)
    (hnoarp : opts.arp = false ∨ m.arp = none)
    (hdhcp : m.dhcp = some reply)
    (hmt : (buildReplyOptions reply.options 53).data = 6 :: rest)
    (hopts : reply.options = o0 :: os)
    (hd : o0.data = d0 :: ds) :
    (processMessage opts ifaceMAC env st m).map
        (fun s => (s.stats, s.outPackets))
      = .ok ((if d0 = 6 then st.stats ++ [StatValue.nakReceived] else st.stats),
             st.outPackets) := by
  have key : processDhcp opts ifaceMAC env st m
      = .ok (if d0 = 6 then addStat st .nakReceived else st) := by
    unfold processDhcp
    rw [hdhcp]
    simp only
    rw [hmt]
    simp only
    norm_num
    unfold processOther
    rw [hopts]
    simp only
    rw [hd]
    by_cases h6 : d0 = 6 <;> simp [h6]
  have goal2 : processMessage opts ifaceMAC env st m
      = .ok (if d0 = 6 then addStat st .nakReceived else st) := by
    unfold processMessage
    rcases hnoarp with h | h
    · cases hma : m.arp with
      | none => exact key
      | some a => simp only [h, Bool.false_eq_true, if_false]; exact key
    · rw [h]; exact key
  rw [goal2]
  by_cases h6 : d0 = 6 <;> simp [h6, addStat, Except.map]

/-- A NAK reply whose message-type option is the first option. -/
def nakReplyFirst : DHCPv4Msg :=
  { xid := 9, yourClientIP := [0, 0, 0, 0]
    clientHWAddr := [1, 2, 3, 4, 5, 6]
    options := [⟨53, [6]⟩, ⟨255, []⟩] }

/-- The frame carrying `nakReplyFirst`. -/
def nakMsgFirst : Message :=
  { arp := none, eth := none, ip := none, dhcp := some nakReplyFirst }

/-- Witness for the amended C9: a NAK whose message-type option is first
records exactly one NAK statistic and no outbound packet. -/
theorem nak_stat_first_option_slot_witness :
    (processMessage plainOpts sampleIfaceMAC sampleEnv
        (initialState plainOpts sampleIfaceMAC sampleGatewayMAC)
        nakMsgFirst).map (fun s => (s.stats, s.outPackets))
      = .ok ((if 6 = 6 then
                (initialState plainOpts sampleIfaceMAC sampleGatewayMAC).stats
                  ++ [StatValue.nakReceived]
              else (initialState plainOpts sampleIfaceMAC sampleGatewayMAC).stats),
             (initialState plainOpts sampleIfaceMAC sampleGatewayMAC).outPackets) :=
  nak_stat_first_option_slot plainOpts sampleIfaceMAC sampleEnv
    (initialState plainOpts sampleIfaceMAC sampleGatewayMAC)
    nakMsgFirst nakReplyFirst ⟨53, [6]⟩ 6 [] [] [⟨255, []⟩]
    (Or.inl rfl) rfl rfl rfl rfl

/-! ## C1: OFFER synthesis echoes the offer -/

lemma foldl_table_of_no_match (c : Nat) (l : List DHCPOption)
    (acc : DHCPOption) (h : ∀ o ∈ l, o.type ≠ c) :
    l.foldl (fun a x => if x.type = c then x else a) acc = acc := by
  induction l generalizing acc with
  | nil => rfl
  | cons x xs ih =>
    rw [List.foldl_cons, if_neg (h x (by simp))]
    exact ih acc (fun o ho => h o (by simp [ho]))

lemma foldl_table_of_filter (c : Nat) (l : List DHCPOption)
    (o : DHCPOption) :
    ∀ acc : DHCPOption, l.filter (fun x => x.type == c) = [o] →
      l.foldl (fun a x => if x.type = c then x else a) acc = o := by
  induction l with
  | nil => intro acc h; simp at h
  | cons x xs ih =>
    intro acc h
    rw [List.foldl_cons]
    by_cases hx : x.type = c
    · rw [if_pos hx]
      rw [List.filter_cons] at h
      simp only [hx, beq_self_eq_true, if_true, List.cons.injEq] at h
      obtain ⟨hxo, hnil⟩ := h
      subst hxo
      apply foldl_table_of_no_match
      intro y hy hyc
      have hmem : y ∈ xs.filter (fun z => z.type == c) :=
        List.mem_filter.mpr ⟨hy, by simp [hyc]⟩
      rw [hnil] at hmem
      simp at hmem
    · rw [if_neg hx]
      rw [List.filter_cons] at h
      simp only [hx, beq_iff_eq, if_false] at h
      exact ih acc h

/-- With exactly one option of code `c` in the reply, the option table at
`c` is that option. -/
lemma buildReplyOptions_of_filter (l : List DHCPOption) (c : Nat)
    (o : DHCPOption) (h : l.filter (fun x => x.type == c) = [o]) :
    buildReplyOptions l c = o :=
  foldl_table_of_filter c l o ⟨0, []⟩ h

/-- When ARP dispatch does not fire, the loop body is the DHCP branch. -/
lemma processMessage_eq_processDhcp (opts : DhcpV4Options)
    (ifaceMAC : List Nat) (env : Env) (st : HandlerState) (m : Message)
    (hnoarp : opts.arp = false ∨ m.arp = none) :
    processMessage opts ifaceMAC env st m
      = processDhcp opts ifaceMAC env st m := by
  unfold processMessage
  rcases hnoarp with h | h
  · cases hma : m.arp with
    | none => rfl
    | some a => simp only [h, Bool.false_eq_true, if_false]
  · rw [h]

/-- C1: for every OFFER processed with handshake mode on, the synthesized
REQUEST (or DECLINE in decline mode) is the single appended outbound
packet; it echoes the offer's transaction ID, carries a requested-IP
option equal to the offer's your-client address, echoes the offer's
server-identifier option bytes unchanged, and takes its client hardware
address from the offer. -/
theorem offer_synthesis_echoes_offer (opts : DhcpV4Options)
    (ifaceMAC : List Nat) (env : Env) (st : HandlerState) (m : Message)
    (reply : DHCPv4Msg) (rest : List Nat) (sid : DHCPOption)
    (hhs : opts.handshake = true)
    (hnoarp : opts.arp = false ∨ m.arp = none)
    (hdhcp : m.dhcp = some reply)
    (hmt : (buildReplyOptions reply.options 53).data = 2 :: rest)
    (hsid : reply.options.filter (fun o => o.type == 54) = [sid]) :
    (processMessage opts ifaceMAC env st m).map (fun s => s.outPackets)
      = .ok (st.outPackets ++ [.dhcp (offerResponse opts st.template reply)]) ∧
    (offerResponse opts st.template reply).dhcp.xid = reply.xid ∧
    (offerResponse opts st.template reply).dhcp.options.get? 0
      = some ⟨53, [if opts.dhcpDecline then 4 else 3]⟩ ∧
    (offerResponse opts st.template reply).dhcp.options.get? 1
      = some ⟨50, reply.yourClientIP⟩ ∧
    (offerResponse opts st.template reply).dhcp.options.get? 2
      = some ⟨54, sid.data⟩ ∧
    (offerResponse opts st.template reply).dhcp.clientHWAddr
      = reply.clientHWAddr := by
  refine ⟨?_, rfl, rfl, rfl, ?_, rfl⟩
  · rw [processMessage_eq_processDhcp opts ifaceMAC env st m hnoarp]
    unfold processDhcp
    rw [hdhcp]
    simp only
    rw [hmt]
    simp only
    norm_num
    unfold processOffer
    simp only [hhs, if_true]
    by_cases hs : env.sendOk <;> simp [hs, addStat, Except.map]
  · show some (⟨54, (buildReplyOptions reply.options 54).data⟩ : DHCPOption)
        = some ⟨54, sid.data⟩
    rw [buildReplyOptions_of_filter reply.options 54 sid hsid]

/-- A configuration with only handshake mode enabled. -/
def hsOpts : DhcpV4Options := { plainOpts with handshake := true }

/-- The parsed OFFER carried by `followupOffer`. -/
def offerReplySample : DHCPv4Msg :=
  { xid := 2, yourClientIP := [10, 0, 0, 6]
    clientHWAddr := [1, 2, 3, 4, 5, 6]
    options := [⟨53, [2]⟩, ⟨54, [10, 0, 0, 1]⟩, ⟨255, []⟩] }

/-- Witness for C1: a concrete OFFER (xid 2, your-client 10.0.0.6,
server-identifier 10.0.0.1) produces exactly the synthesized request
packet. -/
theorem offer_synthesis_echoes_offer_witness :
    (processMessage hsOpts sampleIfaceMAC sampleEnv
        (initialState hsOpts sampleIfaceMAC sampleGatewayMAC)
        followupOffer).map (fun s => s.outPackets)
      = .ok ((initialState hsOpts sampleIfaceMAC sampleGatewayMAC).outPackets
          ++ [.dhcp (offerResponse hsOpts
                (initialState hsOpts sampleIfaceMAC sampleGatewayMAC).template
                offerReplySample)]) :=
  (offer_synthesis_echoes_offer hsOpts sampleIfaceMAC sampleEnv
    (initialState hsOpts sampleIfaceMAC sampleGatewayMAC) followupOffer
    offerReplySample [] ⟨54, [10, 0, 0, 1]⟩
    rfl (Or.inl rfl) rfl (by decide) (by decide)).1

/-! ## C3 and C4: unicast RELEASE/INFORM synthesis and template restore -/

lemma ackLeaseUpdate_preserves (opts : DhcpV4Options) (env : Env)
    (st : HandlerState) (m : Message) (reply : DHCPv4Msg) :
    (ackLeaseUpdate opts env st m reply).template = st.template ∧
    (ackLeaseUpdate opts env st m reply).outPackets = st.outPackets ∧
    (ackLeaseUpdate opts env st m reply).stats = st.stats := by
  unfold ackLeaseUpdate
  repeat' split
  all_goals exact ⟨rfl, rfl, rfl⟩

/-- A reply whose option table classifies it as an ACK routes to the ACK
branch. -/
lemma processDhcp_ack (opts : DhcpV4Options) (ifaceMAC : List Nat)
    (env : Env) (st : HandlerState) (m : Message) (reply : DHCPv4Msg)
    (rest : List Nat) (hdhcp : m.dhcp = some reply)
    (hmt : (buildReplyOptions reply.options 53).data = 5 :: rest) :
    processDhcp opts ifaceMAC env st m
      = processAck opts ifaceMAC env st m reply := by
  unfold processDhcp
  rw [hdhcp]
  simp only
  rw [hmt]
  simp only
  norm_num

/-- The ACK branch with RELEASE/INFORM enabled succeeds and appends
exactly the unicast release packet, restoring the template's client IP
and flags. -/
lemma processAck_release_result (opts : DhcpV4Options) (ifaceMAC : List Nat)
    (env : Env) (st : HandlerState) (m : Message) (reply : DHCPv4Msg)
    (ethL : EthernetLayer) (ipL : IPv4Layer)
    (hrelb : (opts.dhcpRelease || opts.dhcpInfo) = true)
    (heth : m.eth = some ethL) (hip : m.ip = some ipL) :
    ∃ st2, processAck opts ifaceMAC env st m reply = .ok st2 ∧
      st2.outPackets = st.outPackets ++
        [.dhcp (releaseResponse opts ifaceMAC st.template reply ethL ipL)] ∧
      st2.template.dhcp.clientIP = st.template.dhcp.clientIP ∧
      st2.template.dhcp.flags = st.template.dhcp.flags := by
  unfold processAck
  obtain ⟨htpl, hout, -⟩ :=
    ackLeaseUpdate_preserves opts env (addStat st .ackReceived) m reply
  rw [addStat_template] at htpl
  rw [addStat_outPackets] at hout
  unfold ackReleasePhase
  rw [heth, hip]
  simp only [hrelb, if_true]
  simp only [addStat] at htpl hout
  by_cases hs : env.sendOk <;>
    simp only [hs, if_true, Bool.false_eq_true, if_false] <;>
    refine ⟨_, rfl, ?_, ?_, ?_⟩ <;>
    simp [addStat, htpl, hout]

/-- C3: for every ACK processed with release or inform mode on, the
synthesized packet is unicast to the issuing server: its IP destination
is the source address of the ACK's own IP header, its Ethernet
destination the ACK frame's source MAC, its DHCP client IP the acquired
your-client address, its broadcast flags zero, its message-type option
INFORM or RELEASE per configuration, and it echoes the ACK's transaction
ID and client hardware address. -/
theorem ack_release_unicast (opts : DhcpV4Options) (ifaceMAC : List Nat)
    (env : Env) (st : HandlerState) (m : Message) (reply : DHCPv4Msg)
    (rest : List Nat) (ethL : EthernetLayer) (ipL : IPv4Layer)
    (hrel : opts.dhcpRelease = true ∨ opts.dhcpInfo = true)
    (hnoarp : opts.arp = false ∨ m.arp = none)
    (hdhcp : m.dhcp = some reply)
    (hmt : (buildReplyOptions reply.options 53).data = 5 :: rest)
    (heth : m.eth = some ethL) (hip : m.ip = some ipL) :
    (processMessage opts ifaceMAC env st m).map (fun s => s.outPackets)
      = .ok (st.outPackets ++
          [.dhcp (releaseResponse opts ifaceMAC st.template reply ethL ipL)]) ∧
    (releaseResponse opts ifaceMAC st.template reply ethL ipL).ip.dst
      = ipL.src ∧
    (releaseResponse opts ifaceMAC st.template reply ethL ipL).eth.dst
      = ethL.src ∧
    (releaseResponse opts ifaceMAC st.template reply ethL ipL).dhcp.clientIP
      = reply.yourClientIP ∧
    (releaseResponse opts ifaceMAC st.template reply ethL ipL).dhcp.flags
      = 0 ∧
    (releaseResponse opts ifaceMAC st.template reply ethL ipL).dhcp.options.get? 0
      = some ⟨53, [if opts.dhcpInfo then 8 else 7]⟩ ∧
    (releaseResponse opts ifaceMAC st.template reply ethL ipL).dhcp.xid
      = reply.xid ∧
    (releaseResponse opts ifaceMAC st.template reply ethL ipL).dhcp.clientHWAddr
      = reply.clientHWAddr := by
  refine ⟨?_, rfl, rfl, rfl, rfl, rfl, rfl, rfl⟩
  rw [processMessage_eq_processDhcp opts ifaceMAC env st m hnoarp,
     processDhcp_ack opts ifaceMAC env st m reply rest hdhcp hmt]
  have hrelb : (opts.dhcpRelease || opts.dhcpInfo) = true := by
    rcases hrel with h | h <;> simp [h]
  obtain ⟨st2, heq, hpkts, -, -⟩ :=
    processAck_release_result opts ifaceMAC env st m reply ethL ipL hrelb heth hip
  rw [heq, Except.map, hpkts]

/-- C4: after every RELEASE/INFORM synthesis on an ACK, the shared
template's client-IP and flags fields hold the same values as before the
synthesis, so the next loop iteration sees an unchanged template. -/
theorem ack_release_restores_template (opts : DhcpV4Options)
    (ifaceMAC : List Nat) (env : Env) (st : HandlerState) (m : Message)
    (reply : DHCPv4Msg) (rest : List Nat) (ethL : EthernetLayer)
    (ipL : IPv4Layer)
    (hrel : opts.dhcpRelease = true ∨ opts.dhcpInfo = true)
    (hnoarp : opts.arp = false ∨ m.arp = none)
    (hdhcp : m.dhcp = some reply)
    (hmt : (buildReplyOptions reply.options 53).data = 5 :: rest)
    (heth : m.eth = some ethL) (hip : m.ip = some ipL) :
    (processMessage opts ifaceMAC env st m).map
        (fun s => (s.template.dhcp.clientIP, s.template.dhcp.flags))
      = .ok (st.template.dhcp.clientIP, st.template.dhcp.flags) := by
  rw [processMessage_eq_processDhcp opts ifaceMAC env st m hnoarp,
     processDhcp_ack opts ifaceMAC env st m reply rest hdhcp hmt]
  have hrelb : (opts.dhcpRelease || opts.dhcpInfo) = true := by
    rcases hrel with h | h <;> simp [h]
  obtain ⟨st2, heq, -, hcip, hflags⟩ :=
    processAck_release_result opts ifaceMAC env st m reply ethL ipL hrelb heth hip
  rw [heq, Except.map, hcip, hflags]

/-- A configuration with only release mode enabled. -/
def relOpts : DhcpV4Options := { plainOpts with dhcpRelease := true }

/-- A parsed ACK granting 10.0.0.5. -/
def ackReplyRel : DHCPv4Msg :=
  { xid := 77, yourClientIP := [10, 0, 0, 5]
    clientHWAddr := [1, 2, 3, 4, 5, 6]
    options := [⟨53, [5]⟩, ⟨255, []⟩] }

/-- The Ethernet frame of that ACK (source MAC of the issuing server). -/
def ackEth : EthernetLayer :=
  { dst := [2, 0, 0, 0, 0, 1], src := [2, 0, 0, 0, 0, 9], ethType := 0x0800 }

/-- The IP header of that ACK (source 10.0.0.1, the issuing server). -/
def ackIp : IPv4Layer :=
  { version := 4, ttl := 64, protocol := 17
    src := [10, 0, 0, 1], dst := [10, 0, 0, 5] }

/-- The full ACK frame. -/
def ackMsgRel : Message :=
  { arp := none, dhcp := some ackReplyRel, eth := some ackEth, ip := some ackIp }

/-- Witness for C3: the concrete ACK produces exactly the unicast release
packet. -/
theorem ack_release_unicast_witness :
    (processMessage relOpts sampleIfaceMAC sampleEnv
        (initialState relOpts sampleIfaceMAC sampleGatewayMAC)
        ackMsgRel).map (fun s => s.outPackets)
      = .ok ((initialState relOpts sampleIfaceMAC sampleGatewayMAC).outPackets
          ++ [.dhcp (releaseResponse relOpts sampleIfaceMAC
                (initialState relOpts sampleIfaceMAC sampleGatewayMAC).template
                ackReplyRel ackEth ackIp)]) :=
  (ack_release_unicast relOpts sampleIfaceMAC sampleEnv
    (initialState relOpts sampleIfaceMAC sampleGatewayMAC) ackMsgRel
    ackReplyRel [] ackEth ackIp
    (Or.inl rfl) (Or.inl rfl) rfl (by decide) rfl rfl).1

/-- Witness for C4: after the concrete release synthesis the template's
client IP and flags are unchanged. -/
theorem ack_release_restores_template_witness :
    (processMessage relOpts sampleIfaceMAC sampleEnv
        (initialState relOpts sampleIfaceMAC sampleGatewayMAC)
        ackMsgRel).map
      (fun s => (s.template.dhcp.clientIP, s.template.dhcp.flags))
      = .ok ((initialState relOpts sampleIfaceMAC
                sampleGatewayMAC).template.dhcp.clientIP,
             (initialState relOpts sampleIfaceMAC
                sampleGatewayMAC).template.dhcp.flags) :=
  ack_release_restores_template relOpts sampleIfaceMAC sampleEnv
    (initialState relOpts sampleIfaceMAC sampleGatewayMAC) ackMsgRel
    ackReplyRel [] ackEth ackIp
    (Or.inl rfl) (Or.inl rfl) rfl (by decide) rfl rfl

/-! ## C10: the UDP checksum pseudo-header is the template IP layer -/

lemma handleARP_template (opts : DhcpV4Options) (ifaceMAC : List Nat)
    (env : Env) (st : HandlerState) (r : ARPMsg) :
    (handleARP opts ifaceMAC env st r).template = st.template := by
  unfold handleARP
  repeat' split
  all_goals rfl

lemma processOffer_template_ip (opts : DhcpV4Options) (env : Env)
    (st : HandlerState) (reply : DHCPv4Msg) :
    (processOffer opts env st reply).template.ip = st.template.ip := by
  unfold processOffer
  repeat' split
  all_goals rfl

lemma ackReleasePhase_template_ip (opts : DhcpV4Options) (ifaceMAC : List Nat)
    (env : Env) (st : HandlerState) (m : Message) (reply : DHCPv4Msg)
    (st2 : HandlerState)
    (h : ackReleasePhase opts ifaceMAC env st m reply = .ok st2) :
    st2.template.ip = st.template.ip := by
  unfold ackReleasePhase at h
  repeat' split at h
  all_goals first
    | exact Except.noConfusion h
    | (injection h with h2; subst h2; rfl)

lemma processAck_template_ip (opts : DhcpV4Options) (ifaceMAC : List Nat)
    (env : Env) (st : HandlerState) (m : Message) (reply : DHCPv4Msg)
    (st2 : HandlerState)
    (h : processAck opts ifaceMAC env st m reply = .ok st2) :
    st2.template.ip = st.template.ip := by
  unfold processAck at h
  have h2 := ackReleasePhase_template_ip _ _ _ _ _ _ _ h
  obtain ⟨htpl, -, -⟩ :=
    ackLeaseUpdate_preserves opts env (addStat st .ackReceived) m reply
  rw [h2, htpl, addStat_template]

lemma processOther_template (st : HandlerState) (reply : DHCPv4Msg)
    (st2 : HandlerState) (h : processOther st reply = .ok st2) :
    st2.template = st.template := by
  unfold processOther at h
  repeat' split at h
  all_goals first
    | exact Except.noConfusion h
    | (injection h with h2; subst h2; rfl)

lemma processDhcp_template_ip (opts : DhcpV4Options) (ifaceMAC : List Nat)
    (env : Env) (st : HandlerState) (m : Message) (st2 : HandlerState)
    (h : processDhcp opts ifaceMAC env st m = .ok st2) :
    st2.template.ip = st.template.ip := by
  unfold processDhcp at h
  split at h
  · injection h with h2; subst h2; rfl
  · split at h
    · exact Except.noConfusion h
    · split at h
      · injection h with h2; subst h2; exact processOffer_template_ip _ _ _ _
      · split at h
        · exact processAck_template_ip _ _ _ _ _ _ _ h
        · rw [processOther_template _ _ _ h]

lemma processMessage_template_ip (opts : DhcpV4Options) (ifaceMAC : List Nat)
    (env : Env) (st : HandlerState) (m : Message) (st2 : HandlerState)
    (h : processMessage opts ifaceMAC env st m = .ok st2) :
    st2.template.ip = st.template.ip := by
  unfold processMessage at h
  split at h
  · split at h
    · injection h with h2
      subst h2
      rw [handleARP_template, addStat_template]
    · exact processDhcp_template_ip _ _ _ _ _ _ h
  · exact processDhcp_template_ip _ _ _ _ _ _ h

/-- The template's IP layer is never mutated inside the message loop. -/
lemma runMessages_template_ip (opts : DhcpV4Options) (ifaceMAC : List Nat) :
    ∀ (ems : List (Env × Message)) (st st2 : HandlerState),
      runMessages opts ifaceMAC ems st = .ok st2 →
      st2.template.ip = st.template.ip := by
  intro ems
  induction ems with
  | nil =>
    intro st st2 h
    unfold runMessages at h
    injection h with h2
    subst h2
    rfl
  | cons em rest ih =>
    intro st st2 h
    unfold runMessages at h
    cases hp : processMessage opts ifaceMAC em.1 st em.2 with
    | ok st1 =>
      rw [hp] at h
      dsimp only at h
      rw [ih st1 st2 h, processMessage_template_ip _ _ _ _ _ _ hp]
    | error e =>
      rw [hp] at h
      exact Except.noConfusion h

lemma initTemplates_ip (opts : DhcpV4Options) (ifaceMAC gatewayMAC : List Nat) :
    (initTemplates opts ifaceMAC gatewayMAC).ip
      = { version := 4, ttl := 64, protocol := 17
          src := if opts.dhcpRelay then opts.relaySourceIP else [0, 0, 0, 0]
          dst := if opts.dhcpRelay then opts.relayTargetServerIP
                 else [255, 255, 255, 255] } := by
  unfold initTemplates
  by_cases hr : opts.dhcpRelay <;> simp [hr]

/-- C10: in the RELEASE/INFORM synthesis, the UDP layer's checksum
pseudo-header network layer is the long-lived broadcast/relay template IP
layer (source 0.0.0.0 or the relay source, destination 255.255.255.255 or
the relay target), not the freshly built unicast release IP layer that is
actually serialized into the packet. -/
theorem release_checksum_uses_template_ip (opts : DhcpV4Options)
    (ifaceMAC gatewayMAC : List Nat) (pre : List (Env × Message))
    (st : HandlerState) (env : Env) (m : Message) (reply : DHCPv4Msg)
    (rest : List Nat) (ethL : EthernetLayer) (ipL : IPv4Layer)
    (hrel : opts.dhcpRelease = true ∨ opts.dhcpInfo = true)
    (hrun : runMessages opts ifaceMAC pre
        (initialState opts ifaceMAC gatewayMAC) = .ok st)
    (hnoarp : opts.arp = false ∨ m.arp = none)
    (hdhcp : m.dhcp = some reply)
    (hmt : (buildReplyOptions reply.options 53).data = 5 :: rest)
    (heth : m.eth = some ethL) (hip : m.ip = some ipL) :
    (processMessage opts ifaceMAC env st m).map (fun s => s.outPackets)
      = .ok (st.outPackets ++
          [.dhcp (releaseResponse opts ifaceMAC st.template reply ethL ipL)]) ∧
    (releaseResponse opts ifaceMAC st.template reply ethL ipL).udp.checksumNet
      = some { version := 4, ttl := 64, protocol := 17
               src := if opts.dhcpRelay then opts.relaySourceIP else [0, 0, 0, 0]
               dst := if opts.dhcpRelay then opts.relayTargetServerIP
                      else [255, 255, 255, 255] } ∧
    (releaseResponse opts ifaceMAC st.template reply ethL ipL).ip
      = { version := 4, ttl := 64, protocol := 17
          src := reply.yourClientIP, dst := ipL.src } := by
  have hrelb : (opts.dhcpRelease || opts.dhcpInfo) = true := by
    rcases hrel with h | h <;> simp [h]
  refine ⟨?_, ?_, rfl⟩
  · rw [processMessage_eq_processDhcp opts ifaceMAC env st m hnoarp,
       processDhcp_ack opts ifaceMAC env st m reply rest hdhcp hmt]
    obtain ⟨st2, heq, hpkts, -, -⟩ :=
      processAck_release_result opts ifaceMAC env st m reply ethL ipL
        hrelb heth hip
    rw [heq, Except.map, hpkts]
  · show some st.template.ip = _
    rw [runMessages_template_ip opts ifaceMAC pre _ st hrun]
    show some (initTemplates opts ifaceMAC gatewayMAC).ip = _
    rw [initTemplates_ip]

/-- Witness for C10: from a fresh engine (empty run), the concrete
release packet's checksum pseudo-header is the broadcast template IP
layer. -/
theorem release_checksum_uses_template_ip_witness :
    (releaseResponse relOpts sampleIfaceMAC
        (initialState relOpts sampleIfaceMAC sampleGatewayMAC).template
        ackReplyRel ackEth ackIp).udp.checksumNet
      = some { version := 4, ttl := 64, protocol := 17
               src := if relOpts.dhcpRelay then relOpts.relaySourceIP
                      else [0, 0, 0, 0]
               dst := if relOpts.dhcpRelay then relOpts.relayTargetServerIP
                      else [255, 255, 255, 255] } :=
  (release_checksum_uses_template_ip relOpts sampleIfaceMAC sampleGatewayMAC
    [] (initialState relOpts sampleIfaceMAC sampleGatewayMAC) sampleEnv
    ackMsgRel ackReplyRel [] ackEth ackIp
    (Or.inl rfl) rfl (Or.inl rfl) rfl (by decide) rfl rfl).2.1

/-! ## C2: first ACK wins; one lease per address; no duplicate binding -/

/-- A frame the loop processes as an ACK for address `a`: ARP dispatch
does not fire, the captured frame carries Ethernet and IPv4 layers, and
its DHCP reply is table-classified as an ACK whose your-client address is
`a`. -/
def WellFormedAckFor (opts : DhcpV4Options) (a : List Nat) (m : Message) :
    Prop :=
  (opts.arp = false ∨ m.arp = none) ∧
  m.eth.isSome = true ∧ m.ip.isSome = true ∧
  ∃ reply rest, m.dhcp = some reply ∧ reply.yourClientIP = a ∧
    (buildReplyOptions reply.options 53).data = 5 :: rest

/-- The lease the handler creates from the first ACK: acquisition time
and client hardware address from that ACK, and a binding handle exactly
when `Bind` mode is on and both netlink calls succeed. -/
def mkFirstLease (opts : DhcpV4Options) (env : Env) (m : Message) :
    LeaseDhcpV4 :=
  let reply := m.dhcp.getD ⟨0, [], [], []⟩
  { packet := m, acquired := env.now, hwAddr := reply.clientHWAddr
    linkAddr := if opts.bind && env.parseOk && env.addOk
                then some reply.yourClientIP else none }

lemma ackLeaseUpdate_insert (opts : DhcpV4Options) (env : Env)
    (st : HandlerState) (m : Message) (reply : DHCPv4Msg)
    (hmode : (opts.arp || opts.bind) = true)
    (hnone : lookupLease st.acquiredIPs reply.yourClientIP = none)
    (hdhcp : m.dhcp = some reply) :
    (ackLeaseUpdate opts env st m reply).acquiredIPs
      = st.acquiredIPs ++ [(reply.yourClientIP, mkFirstLease opts env m)] ∧
    (ackLeaseUpdate opts env st m reply).bindAttempts
      = st.bindAttempts ++
          (if opts.bind && env.parseOk then [reply.yourClientIP] else []) := by
  have hm : mkFirstLease opts env m
      = { packet := m, acquired := env.now, hwAddr := reply.clientHWAddr
          linkAddr := if opts.bind && env.parseOk && env.addOk
                      then some reply.yourClientIP else none } := by
    unfold mkFirstLease
    rw [hdhcp]
    rfl
  unfold ackLeaseUpdate
  simp only [hmode, if_true, hnone]
  rw [hm]
  by_cases hb : opts.bind <;> by_cases hp : env.parseOk <;>
    by_cases ha : env.addOk <;> simp [hb, hp, ha]

lemma ackLeaseUpdate_found (opts : DhcpV4Options) (env : Env)
    (st : HandlerState) (m : Message) (reply : DHCPv4Msg) (l : LeaseDhcpV4)
    (hsome : lookupLease st.acquiredIPs reply.yourClientIP = some l) :
    ackLeaseUpdate opts env st m reply = st := by
  unfold ackLeaseUpdate
  by_cases hmode : (opts.arp || opts.bind) = true
  · simp [hmode, hsome]
  · simp [hmode]

lemma ackReleasePhase_tables (opts : DhcpV4Options) (ifaceMAC : List Nat)
    (env : Env) (st : HandlerState) (m : Message) (reply : DHCPv4Msg)
    (st2 : HandlerState)
    (h : ackReleasePhase opts ifaceMAC env st m reply = .ok st2) :
    st2.acquiredIPs = st.acquiredIPs ∧ st2.bindAttempts = st.bindAttempts := by
  unfold ackReleasePhase at h
  repeat' split at h
  all_goals first
    | exact Except.noConfusion h
    | (injection h with h2; subst h2; exact ⟨rfl, rfl⟩)

lemma ackReleasePhase_ok (opts : DhcpV4Options) (ifaceMAC : List Nat)
    (env : Env) (st : HandlerState) (m : Message) (reply : DHCPv4Msg)
    (heth : m.eth.isSome = true) (hip : m.ip.isSome = true) :
    ∃ st2, ackReleasePhase opts ifaceMAC env st m reply = .ok st2 := by
  obtain ⟨ethL, he⟩ := Option.isSome_iff_exists.mp heth
  obtain ⟨ipL, hi⟩ := Option.isSome_iff_exists.mp hip
  unfold ackReleasePhase
  rw [he, hi]
  by_cases hrel : (opts.dhcpRelease || opts.dhcpInfo) = true
  · simp only [hrel, if_true]
    by_cases hs : env.sendOk
    · simp only [hs, if_true]
      exact ⟨_, rfl⟩
    · simp only [hs, Bool.false_eq_true, if_false]
      exact ⟨_, rfl⟩
  · simp only [hrel, Bool.false_eq_true, if_false]
    exact ⟨_, rfl⟩

/-- Processing a well-formed ACK for an address with no existing lease
appends exactly one lease built from that ACK, and attempts the interface
binding at most once. -/
lemma processMessage_ack_new (opts : DhcpV4Options) (ifaceMAC a : List Nat)
    (env : Env) (st : HandlerState) (m : Message)
    (hm : WellFormedAckFor opts a m)
    (hmode : (opts.arp || opts.bind) = true)
    (hnone : lookupLease st.acquiredIPs a = none) :
    ∃ st2, processMessage opts ifaceMAC env st m = .ok st2 ∧
      st2.acquiredIPs = st.acquiredIPs ++ [(a, mkFirstLease opts env m)] ∧
      st2.bindAttempts = st.bindAttempts ++
        (if opts.bind && env.parseOk then [a] else []) := by
  obtain ⟨hnoarp, heth, hip, reply, rest, hdhcp, hyip, hmt⟩ := hm
  subst hyip
  rw [processMessage_eq_processDhcp opts ifaceMAC env st m hnoarp,
     processDhcp_ack opts ifaceMAC env st m reply rest hdhcp hmt]
  unfold processAck
  obtain ⟨hacq, hbind⟩ :=
    ackLeaseUpdate_insert opts env (addStat st .ackReceived) m reply
      hmode hnone hdhcp
  obtain ⟨st2, h2⟩ :=
    ackReleasePhase_ok opts ifaceMAC env
      (ackLeaseUpdate opts env (addStat st .ackReceived) m reply) m reply
      heth hip
  obtain ⟨ha2, hb2⟩ := ackReleasePhase_tables _ _ _ _ _ _ _ h2
  refine ⟨st2, h2, ?_, ?_⟩
  · rw [ha2, hacq, addStat_acquiredIPs]
  · rw [hb2, hbind, addStat_bindAttempts]

/-- Processing a well-formed ACK for an address that already has a lease
changes neither the lease table nor the bind-attempt log. -/
lemma processMessage_ack_existing (opts : DhcpV4Options)
    (ifaceMAC a : List Nat) (env : Env) (st : HandlerState) (m : Message)
    (l : LeaseDhcpV4) (hm : WellFormedAckFor opts a m)
    (hsome : lookupLease st.acquiredIPs a = some l) :
    ∃ st2, processMessage opts ifaceMAC env st m = .ok st2 ∧
      st2.acquiredIPs = st.acquiredIPs ∧
      st2.bindAttempts = st.bindAttempts := by
  obtain ⟨hnoarp, heth, hip, reply, rest, hdhcp, hyip, hmt⟩ := hm
  subst hyip
  rw [processMessage_eq_processDhcp opts ifaceMAC env st m hnoarp,
     processDhcp_ack opts ifaceMAC env st m reply rest hdhcp hmt]
  unfold processAck
  rw [ackLeaseUpdate_found opts env (addStat st .ackReceived) m reply l hsome]
  obtain ⟨st2, h2⟩ :=
    ackReleasePhase_ok opts ifaceMAC env (addStat st .ackReceived) m reply
      heth hip
  obtain ⟨ha2, hb2⟩ := ackReleasePhase_tables _ _ _ _ _ _ _ h2
  exact ⟨st2, h2, by rw [ha2, addStat_acquiredIPs],
         by rw [hb2, addStat_bindAttempts]⟩

/-- Once the lease exists, a run of further well-formed ACKs for the same
address leaves the lease table and the bind-attempt log unchanged. -/
lemma runMessages_ack_preserve (opts : DhcpV4Options) (ifaceMAC a : List Nat)
    (l : LeaseDhcpV4) :
    ∀ (ems : List (Env × Message)) (st : HandlerState),
      (∀ x ∈ ems, WellFormedAckFor opts a x.2) →
      lookupLease st.acquiredIPs a = some l →
      ∃ st2, runMessages opts ifaceMAC ems st = .ok st2 ∧
        st2.acquiredIPs = st.acquiredIPs ∧
        st2.bindAttempts = st.bindAttempts := by
  intro ems
  induction ems with
  | nil => intro st _ _; exact ⟨st, rfl, rfl, rfl⟩
  | cons em rest ih =>
    intro st hall hsome
    obtain ⟨st1, h1, ha1, hb1⟩ :=
      processMessage_ack_existing opts ifaceMAC a em.1 st em.2 l
        (hall em (by simp)) hsome
    obtain ⟨st2, h2, ha2, hb2⟩ :=
      ih st1 (fun x hx => hall x (by simp [hx])) (by rw [ha1]; exact hsome)
    refine ⟨st2, ?_, by rw [ha2, ha1], by rw [hb2, hb1]⟩
    unfold runMessages
    rw [h1]
    dsimp only
    exact h2

/-- C2: for every nonempty sequence of processed ACKs naming the same
your-client address (ARP-defense or Bind mode on), the run succeeds, the
lease table holds exactly one entry for that address, that entry is built
from the first ACK only (its hardware address, acquisition time and
binding handle), and the interface binding is attempted only by the first
ACK — never again. -/
theorem ack_lease_first_wins (opts : DhcpV4Options) (ifaceMAC a : List Nat)
    (em : Env × Message) (rest : List (Env × Message)) (st0 : HandlerState)
    (hmode : opts.arp = true ∨ opts.bind = true)
    (hall : ∀ x ∈ em :: rest, WellFormedAckFor opts a x.2)
    (h0 : countKey a st0.acquiredIPs = 0)
    (hb0 : countOcc a st0.bindAttempts = 0) :
    (runMessages opts ifaceMAC (em :: rest) st0).map
        (fun s => (lookupLease s.acquiredIPs a, countKey a s.acquiredIPs,
                   countOcc a s.bindAttempts))
      = .ok (some (mkFirstLease opts em.1 em.2), 1,
             if opts.bind && em.1.parseOk then 1 else 0) := by
  have hmodeb : (opts.arp || opts.bind) = true := by
    rcases hmode with h | h <;> simp [h]
  have hnone : lookupLease st0.acquiredIPs a = none :=
    lookupLease_of_countKey_zero _ _ h0
  obtain ⟨st1, h1, ha1, hb1⟩ :=
    processMessage_ack_new opts ifaceMAC a em.1 st0 em.2
      (hall em (by simp)) hmodeb hnone
  have hlk1 : lookupLease st1.acquiredIPs a
      = some (mkFirstLease opts em.1 em.2) := by
    rw [ha1]
    exact lookupLease_append_right _ _ _ hnone
  obtain ⟨st2, h2, ha2, hb2⟩ :=
    runMessages_ack_preserve opts ifaceMAC a (mkFirstLease opts em.1 em.2)
      rest st1 (fun x hx => hall x (by simp [hx])) hlk1
  have hrun : runMessages opts ifaceMAC (em :: rest) st0 = .ok st2 := by
    unfold runMessages
    rw [h1]
    dsimp only
    exact h2
  have hlk2 : lookupLease st2.acquiredIPs a
      = some (mkFirstLease opts em.1 em.2) := by
    rw [ha2]
    exact hlk1
  have hck2 : countKey a st2.acquiredIPs = 1 := by
    rw [ha2, ha1, countKey_append, h0]
    simp [countKey]
  have hco2 : countOcc a st2.bindAttempts
      = (if opts.bind && em.1.parseOk then 1 else 0) := by
    rw [hb2, hb1, countOcc_append, hb0]
    by_cases hc : (opts.bind && em.1.parseOk) = true
    · simp [hc, countOcc]
    · simp [hc, countOcc]
  rw [hrun, Except.map, hlk2, hck2, hco2]

/-- The environment of a later, duplicate ACK (different timestamp). -/
def secondAckEnv : Env := { now := 99, parseOk := true, addOk := true, sendOk := true }

/-- Witness for C2: two back-to-back ACKs for 10.0.0.5 in Bind mode leave
one lease built from the first ACK and a single bind attempt. -/
theorem ack_lease_first_wins_witness :
    (runMessages bindOpts sampleIfaceMAC
        [(sampleEnv, ackMsgRel), (secondAckEnv, ackMsgRel)]
        (initialState bindOpts sampleIfaceMAC sampleGatewayMAC)).map
        (fun s => (lookupLease s.acquiredIPs [10, 0, 0, 5],
                   countKey [10, 0, 0, 5] s.acquiredIPs,
                   countOcc [10, 0, 0, 5] s.bindAttempts))
      = .ok (some (mkFirstLease bindOpts sampleEnv ackMsgRel), 1,
             if bindOpts.bind && sampleEnv.parseOk then 1 else 0) := by
  have hwf : WellFormedAckFor bindOpts [10, 0, 0, 5] ackMsgRel :=
    ⟨Or.inl rfl, rfl, rfl, ackReplyRel, [], rfl, rfl, by decide⟩
  exact ack_lease_first_wins bindOpts sampleIfaceMAC [10, 0, 0, 5]
    (sampleEnv, ackMsgRel) [(secondAckEnv, ackMsgRel)]
    (initialState bindOpts sampleIfaceMAC sampleGatewayMAC)
    (Or.inr rfl)
    (by intro x hx
        simp only [List.mem_cons, List.not_mem_nil, or_false] at hx
        rcases hx with h | h
        · subst h; exact hwf
        · subst h; exact hwf)
    rfl rfl
